import Mathlib

/-!
Shallow embedding of the SimWidget screen-capture pipeline
(`capture-service.cpp`, `capture-service-jpeg.cpp`, `shm-capture/shm-capture.cpp`,
`node-addon/capture.cpp`) together with proofs about the frozen
specification claims.

Machine integers are modelled by `Nat`/`Int` with explicit `% 2^w`
where the code truncates (the UINT/USHORT header stores).  Byte buffers
are functions from offsets to byte values, and `memcpy` is modelled by
`writeBytes`.  The pieces of the environment the code cannot control
(HRESULT outcomes of the DXGI/WIC calls, the mapped source bytes, the
row pitch) are passed in as explicit environment records, so every
control path of the source is represented.
-/

/-- A CPU byte buffer addressed by offset.  Models `BYTE*` arrays and the
mapped staging memory. -/
abbrev Buf : Type := Nat → Nat

/-- Model of `memcpy(buffer + off, srcBytes, n)`: offsets in `[off, off+n)`
take the source bytes, all other offsets keep their old contents. -/
def writeBytes (b : Buf) (off : Nat) (src : Nat → Nat) (n : Nat) : Buf :=
  fun i => if off ≤ i ∧ i < off + n then src (i - off) else b i

theorem writeBytes_at (b : Buf) (off : Nat) (src : Nat → Nat) (n i : Nat)
    (h1 : off ≤ i) (h2 : i < off + n) : writeBytes b off src n i = src (i - off) := by
  simp [writeBytes, h1, h2]

theorem writeBytes_below (b : Buf) (off : Nat) (src : Nat → Nat) (n i : Nat)
    (h : i < off) : writeBytes b off src n i = b i := by
  have hn : ¬ (off ≤ i ∧ i < off + n) := by omega
  simp [writeBytes, hn]

theorem writeBytes_above (b : Buf) (off : Nat) (src : Nat → Nat) (n i : Nat)
    (h : off + n ≤ i) : writeBytes b off src n i = b i := by
  have hn : ¬ (off ≤ i ∧ i < off + n) := by omega
  simp [writeBytes, hn]

/-- Little-endian byte `k` of the 32-bit value `v`. -/
def u32Byte (v k : Nat) : Nat := v / 256 ^ k % 256

/-- Model of `memcpy(buffer + off, &v, 4)` for a little-endian `UINT`. -/
def writeU32LE (b : Buf) (off v : Nat) : Buf := writeBytes b off (u32Byte v) 4

/-- Model of a little-endian `USHORT` store at `buffer + off`. -/
def writeU16LE (b : Buf) (off v : Nat) : Buf := writeBytes b off (u32Byte v) 2

/-- Read back a 32-bit little-endian integer from four buffer bytes. -/
def readU32LE (b : Buf) (off : Nat) : Nat :=
  b off + 256 * b (off + 1) + 65536 * b (off + 2) + 16777216 * b (off + 3)

theorem readU32LE_writeU32LE (b : Buf) (off v : Nat) :
    readU32LE (writeU32LE b off v) off = v % 4294967296 := by
  unfold readU32LE writeU32LE
  rw [writeBytes_at _ _ _ _ _ (by omega) (by omega),
      writeBytes_at _ _ _ _ _ (by omega) (by omega),
      writeBytes_at _ _ _ _ _ (by omega) (by omega),
      writeBytes_at _ _ _ _ _ (by omega) (by omega)]
  have e0 : off - off = 0 := by omega
  have e1 : off + 1 - off = 1 := by omega
  have e2 : off + 2 - off = 2 := by omega
  have e3 : off + 3 - off = 3 := by omega
  rw [e0, e1, e2, e3]
  simp only [u32Byte]
  norm_num
  omega

/-- The pitch-corrected row copy of the capture services
(`capture-service.cpp` lines 150–154, `node-addon/capture.cpp` lines 117–121,
and the identical loop of `shm-capture.cpp` lines 139–141):
for `y` from `0` to `height - 1` it performs
`memcpy(dst + y*width*4, src + y*rowPitch, width*4)` where `dst` starts at
`dstOff` inside the destination buffer. -/
def copyRowsLoop (b : Buf) (dstOff : Nat) (src : Nat → Nat) (rowPitch width : Nat) :
    Nat → Buf
  | 0 => b
  | y + 1 =>
      writeBytes (copyRowsLoop b dstOff src rowPitch width y)
        (dstOff + y * (width * 4)) (fun j => src (y * rowPitch + j)) (width * 4)

theorem copyRowsLoop_below (b : Buf) (dstOff : Nat) (src : Nat → Nat)
    (rp w : Nat) : ∀ h i, i < dstOff → copyRowsLoop b dstOff src rp w h i = b i := by
  intro h
  induction h with
  | zero => intro i _; rfl
  | succ n ih =>
      intro i hi
      show writeBytes _ _ _ _ _ = _
      rw [writeBytes_below _ _ _ _ _ (by omega)]
      exact ih i hi

theorem copyRowsLoop_above (b : Buf) (dstOff : Nat) (src : Nat → Nat)
    (rp w : Nat) : ∀ h i, dstOff + h * (w * 4) ≤ i →
      copyRowsLoop b dstOff src rp w h i = b i := by
  intro h
  induction h with
  | zero => intro i _; rfl
  | succ n ih =>
      intro i hi
      have hs : (n + 1) * (w * 4) = n * (w * 4) + w * 4 := by ring
      show writeBytes _ _ _ _ _ = _
      rw [writeBytes_above _ _ _ _ _ (by omega)]
      exact ih i (by omega)

theorem copyRowsLoop_row (b : Buf) (dstOff : Nat) (src : Nat → Nat)
    (rp w : Nat) : ∀ h y j, y < h → j < w * 4 →
      copyRowsLoop b dstOff src rp w h (dstOff + y * (w * 4) + j) = src (y * rp + j) := by
  intro h
  induction h with
  | zero => intro y j hy _; omega
  | succ n ih =>
      intro y j hy hj
      show writeBytes _ _ _ _ _ = _
      by_cases hyn : y = n
      · subst hyn
        rw [writeBytes_at _ _ _ _ _ (by omega) (by omega)]
        congr 1
        omega
      · have hy' : y < n := by omega
        have h1 : y * (w * 4) + j < (y + 1) * (w * 4) := by
          have : (y + 1) * (w * 4) = y * (w * 4) + w * 4 := by ring
          omega
        have h2 : (y + 1) * (w * 4) ≤ n * (w * 4) :=
          Nat.mul_le_mul_right _ (by omega)
        rw [writeBytes_below _ _ _ _ _ (by omega)]
        exact ih y j hy' hj

/-- Claim C2: for every mapped frame, the staged-to-destination copy writes,
for each scan line `y < height`, exactly `width*4` bytes from source offset
`y*rowPitch` to destination offset `y*width*4` (relative to the start of the
pixel area at `dstOff`), and touches no destination byte outside the
`height*width*4` pixel area — pitch correction independent of whether
`rowPitch = width*4`. -/
theorem c2_copy_rows_pitch_correct (b : Buf) (dstOff : Nat) (src : Nat → Nat)
    (rp w h : Nat) :
    (∀ y j, y < h → j < w * 4 →
        copyRowsLoop b dstOff src rp w h (dstOff + y * (w * 4) + j) = src (y * rp + j))
    ∧ (∀ i, i < dstOff → copyRowsLoop b dstOff src rp w h i = b i)
    ∧ (∀ i, dstOff + h * (w * 4) ≤ i → copyRowsLoop b dstOff src rp w h i = b i) :=
  ⟨fun y j hy hj => copyRowsLoop_row b dstOff src rp w h y j hy hj,
   fun i hi => copyRowsLoop_below b dstOff src rp w h i hi,
   fun i hi => copyRowsLoop_above b dstOff src rp w h i hi⟩

/-- Witness for C2 at a concrete pitch-padded frame: `width = 2`, `height = 2`,
`rowPitch = 12 ≠ 8 = width*4`; row 1, byte 3 of the destination comes from
source offset `1*12 + 3 = 15`. -/
theorem c2_witness :
    copyRowsLoop (fun _ => 0) 8 (fun n => n) 12 2 2 (8 + 1 * (2 * 4) + 3) = 15 :=
  (c2_copy_rows_pitch_correct (fun _ => 0) 8 (fun n => n) 12 2 2).1 1 3
    (by decide) (by decide)

/-- Outcome of `IDXGIOutputDuplication::AcquireNextFrame` as discriminated by
the sources: success, `DXGI_ERROR_WAIT_TIMEOUT`, `DXGI_ERROR_ACCESS_LOST`,
or any other failing HRESULT. -/
inductive AcquireResult
  | ok
  | waitTimeout
  | accessLost
  | otherError
deriving DecidableEq, Repr

/-- Whether the acquire returned a frame. -/
def AcquireResult.isOk : AcquireResult → Bool
  | AcquireResult.ok => true
  | _ => false

/-- Calls issued against the duplication surface, in order. -/
inductive DupEvent
  | release
  | acquire (ok : Bool)
deriving DecidableEq, Repr

/-- Session state of `ScreenCapture` in `capture-service.cpp`: the fixed
dimensions queried at `Initialize` time and the `hasFrame` held-frame flag. -/
structure Session where
  width : Nat
  height : Nat
  hasFrame : Bool
deriving DecidableEq, Repr

/-- Environment of one `CaptureFrame` call: the acquire outcome, the HRESULTs
of `QueryInterface` and `Map`, and the mapped staging memory (its bytes and
its row pitch). -/
structure CaptureEnv where
  acquire : AcquireResult
  qiOk : Bool
  mapOk : Bool
  rowPitch : Nat
  srcByte : Nat → Nat

/-- Result of one modelled `CaptureFrame` call: new session state, the `int`
return value, the caller-supplied buffer after the call, and the sequence of
duplication-surface calls issued. -/
structure CapResult where
  sess : Session
  ret : Int
  buf : Buf
  events : List DupEvent

/-- Lines 87–91 of `capture-service.cpp`: release the previous frame only if
one is held, then clear the flag. -/
def releasePhase (s : Session) : Session × List DupEvent :=
  if s.hasFrame then ({ s with hasFrame := false }, [DupEvent.release])
  else (s, [])

/-- The buffer produced by a successful raw `CaptureFrame`: the
`[4B width][4B height]` header, then the pitch-corrected pixel rows at
`buffer + 8` (`capture-service.cpp` lines 145–154). -/
def rawFrameBuf (w h : Nat) (env : CaptureEnv) (buf : Buf) : Buf :=
  copyRowsLoop (writeU32LE (writeU32LE buf 0 w) 4 h) 8 env.srcByte env.rowPitch w h

/-- `ScreenCapture::CaptureFrame` of `capture-service.cpp` (lines 83–158):
conditional release, acquire with 500 ms timeout (`-2` on timeout, `-3` on
`DXGI_ERROR_ACCESS_LOST`, `-1` on other failure), texture `QueryInterface`,
staging map, buffer-size check against `maxSize`, the 8-byte
`[4B width][4B height]` header, and the pitch-corrected row copy;
returns `headerSize + dataSize` on success. -/
def captureFrame (s : Session) (env : CaptureEnv) (buf : Buf) (maxSize : Nat) :
    CapResult :=
  let rel := releasePhase s
  let s1 := rel.1
  match env.acquire with
  | AcquireResult.waitTimeout => ⟨s1, -2, buf, rel.2 ++ [DupEvent.acquire false]⟩
  | AcquireResult.accessLost => ⟨s1, -3, buf, rel.2 ++ [DupEvent.acquire false]⟩
  | AcquireResult.otherError => ⟨s1, -1, buf, rel.2 ++ [DupEvent.acquire false]⟩
  | AcquireResult.ok =>
      let s2 : Session := { s1 with hasFrame := true }
      let evts := rel.2 ++ [DupEvent.acquire true]
      if env.qiOk = false then ⟨s2, -1, buf, evts⟩
      else if env.mapOk = false then ⟨s2, -1, buf, evts⟩
      else
        let totalSize := 8 + s1.width * s1.height * 4
        if maxSize < totalSize then ⟨s2, -1, buf, evts⟩
        else ⟨s2, (totalSize : Int), rawFrameBuf s1.width s1.height env buf, evts⟩

/-- Duplication-surface call trace of a whole run of the raw service: any
sequence of `CaptureFrame` calls the caller can make, threading the session
state and the reused frame buffer. -/
def rawRun (s : Session) (buf : Buf) (maxSize : Nat) : List CaptureEnv → List DupEvent
  | [] => []
  | e :: es =>
      let r := captureFrame s e buf maxSize
      r.events ++ rawRun r.sess r.buf maxSize es

/-- Replays a duplication trace and checks the held-frame invariant: an
acquire may only be issued while no frame is held; a successful acquire sets
the held state, a release clears it. -/
def traceOk : Bool → List DupEvent → Bool
  | _, [] => true
  | _, DupEvent.release :: t => traceOk false t
  | held, DupEvent.acquire ok :: t => !held && traceOk ok t

/-- Checks the literal reading of claim C5: between any two acquire calls of
the trace there is a release call. -/
def relBetween : Bool → List DupEvent → Bool
  | _, [] => true
  | _, DupEvent.release :: t => relBetween false t
  | acquirePending, DupEvent.acquire _ :: t => !acquirePending && relBetween true t

theorem captureFrame_events (s : Session) (env : CaptureEnv) (buf : Buf) (m : Nat) :
    (captureFrame s env buf m).events
      = (if s.hasFrame then [DupEvent.release] else [])
        ++ [DupEvent.acquire env.acquire.isOk] := by
  cases hs : s.hasFrame <;> cases henv : env.acquire <;>
    simp [captureFrame, releasePhase, AcquireResult.isOk, henv, hs] <;>
    split_ifs <;> rfl

theorem captureFrame_hasFrame (s : Session) (env : CaptureEnv) (buf : Buf) (m : Nat) :
    (captureFrame s env buf m).sess.hasFrame = env.acquire.isOk := by
  cases hs : s.hasFrame <;> cases henv : env.acquire <;>
    simp [captureFrame, releasePhase, AcquireResult.isOk, henv, hs] <;>
    split_ifs <;> rfl

theorem rawRun_traceOk (envs : List CaptureEnv) :
    ∀ (s : Session) (buf : Buf) (m : Nat),
      traceOk s.hasFrame (rawRun s buf m envs) = true := by
  induction envs with
  | nil => intro s buf m; rfl
  | cons e es ih =>
      intro s buf m
      show traceOk s.hasFrame ((captureFrame s e buf m).events ++ _) = true
      rw [captureFrame_events]
      have hnext := ih (captureFrame s e buf m).sess (captureFrame s e buf m).buf m
      rw [captureFrame_hasFrame] at hnext
      cases hs : s.hasFrame <;> simp [traceOk, hnext]

/-- Events of one `SharedMemoryCapture::CaptureFrame` run (`shm-capture.cpp`
lines 114–121): an unconditional `ReleaseFrame` precedes every acquire. -/
def shmRunEvents : List AcquireResult → List DupEvent
  | [] => []
  | a :: t => DupEvent.release :: DupEvent.acquire a.isOk :: shmRunEvents t

/-- Events of a run of `ScreenCaptureAddon::CaptureFrame`
(`node-addon/capture.cpp` lines 73–86): nothing is issued before
initialization; afterwards an unconditional `ReleaseFrame` precedes every
acquire. -/
def addonRunEvents (inited : Bool) : List AcquireResult → List DupEvent
  | [] => []
  | a :: t =>
      (if inited then [DupEvent.release, DupEvent.acquire a.isOk] else [])
        ++ addonRunEvents inited t

theorem shmRunEvents_traceOk (as : List AcquireResult) :
    ∀ held, traceOk held (shmRunEvents as) = true := by
  induction as with
  | nil => intro held; rfl
  | cons a t ih => intro held; simp [shmRunEvents, traceOk, ih]

theorem addonRunEvents_traceOk (inited : Bool) (as : List AcquireResult) :
    ∀ held, traceOk held (addonRunEvents inited as) = true := by
  induction as with
  | nil => intro held; rfl
  | cons a t ih =>
      intro held
      cases inited <;> simp [addonRunEvents, traceOk, ih]

/-- All-zero initial frame buffer. -/
def zeroBuf : Buf := fun _ => 0

/-- A `CaptureFrame` environment whose acquire times out (no screen change). -/
def envRawTimeout : CaptureEnv :=
  { acquire := AcquireResult.waitTimeout, qiOk := true, mapOk := true,
    rowPitch := 8, srcByte := fun _ => 0 }

/-- Counterexample to the literal reading of C5: two consecutive
`CaptureFrame` calls that both time out issue two `AcquireNextFrame` calls
with no `ReleaseFrame` between them (the release on lines 88–91 of
`capture-service.cpp` is conditional on `hasFrame`, which stays `false`
after a timed-out acquire). -/
theorem c5_counterexample :
    relBetween false
      (rawRun ⟨2, 2, false⟩ zeroBuf 999 [envRawTimeout, envRawTimeout]) = false := by
  rfl

/-- Claim C5 (amended): the held-frame invariant is enforced inside the
components for every call sequence the caller can make — a new acquire is
never issued while a previous frame is still held.  In the raw service a
release precedes the acquire exactly when a frame is held; in the
shared-memory and addon variants an unconditional release precedes every
acquire.  (A release does not separate two acquires when the earlier acquire
returned no frame.) -/
theorem c5_no_acquire_while_held :
    (∀ (s : Session) (buf : Buf) (m : Nat) (envs : List CaptureEnv),
        traceOk s.hasFrame (rawRun s buf m envs) = true)
    ∧ (∀ (held : Bool) (as : List AcquireResult), traceOk held (shmRunEvents as) = true)
    ∧ (∀ (inited held : Bool) (as : List AcquireResult),
        traceOk held (addonRunEvents inited as) = true) :=
  ⟨fun s buf m envs => rawRun_traceOk envs s buf m,
   fun held as => shmRunEvents_traceOk as held,
   fun inited held as => addonRunEvents_traceOk inited as held⟩

/-- One store into the shared-memory region, in the order the producer issues
them (`shm-capture.cpp` lines 134–145). -/
inductive ShmWrite
  | pixel (dstOff srcOff len : Nat)
  | frameNum (v : Nat)
  | timestamp (v : Nat)
  | ready (v : Nat)
deriving DecidableEq, Repr

/-- The row-copy loop of `SharedMemoryCapture::CaptureFrame`: row `y` copies
`width*4` bytes from `src + y*rowPitch` to `pixelData + y*width*4`. -/
def rowWrites (w rp : Nat) : Nat → List ShmWrite
  | 0 => []
  | y + 1 => rowWrites w rp y ++ [ShmWrite.pixel (y * (w * 4)) (y * rp) (w * 4)]

/-- The complete store sequence of one successful shared-memory frame: all
pixel rows, then `frameNum`, then `timestamp`, then `ready = 1`
(`shm-capture.cpp` lines 139–145). -/
def shmWrites (w h rp n t : Nat) : List ShmWrite :=
  rowWrites w rp h ++ [ShmWrite.frameNum n, ShmWrite.timestamp t, ShmWrite.ready 1]

/-- Environment of one shared-memory capture call. -/
structure ShmEnv where
  acquire : AcquireResult
  mapOk : Bool
  rowPitch : Nat
  srcByte : Nat → Nat
  tick : Nat

/-- `SharedMemoryCapture::CaptureFrame` (`shm-capture.cpp` lines 114–149):
unconditional `ReleaseFrame` (its HRESULT — an error when no frame is
held — is discarded), acquire with 100 ms timeout (any failure, including
timeout, returns `false`), staging map, then the store sequence `shmWrites`.
Returns `(releaseApiOk, success, frameNum after the call, stores issued)`. -/
def shmCaptureFrame (held : Bool) (frameNum : Nat) (env : ShmEnv) (w h : Nat) :
    Bool × Bool × Nat × List ShmWrite :=
  let relOk := held
  match env.acquire with
  | AcquireResult.ok =>
      if env.mapOk = false then (relOk, false, frameNum, [])
      else (relOk, true, frameNum + 1, shmWrites w h env.rowPitch (frameNum + 1) env.tick)
  | _ => (relOk, false, frameNum, [])

theorem rowWrites_eq (w rp : Nat) :
    ∀ h, rowWrites w rp h
      = (List.range h).map (fun y => ShmWrite.pixel (y * (w * 4)) (y * rp) (w * 4)) := by
  intro h
  induction h with
  | zero => rfl
  | succ n ih => rw [rowWrites, ih, List.range_succ, List.map_append]; rfl

theorem rowWrites_length (w rp h : Nat) : (rowWrites w rp h).length = h := by
  rw [rowWrites_eq]; simp

/-- Claim C7: for every successfully captured shared-memory frame, the
producer's store sequence is exactly the `height` pixel-row stores (covering
every byte offset below `height*width*4`) followed by `frameNum`,
`timestampMs`, and `readyFlag = 1`; in particular the `ready = 1` store sits
at index `height + 2`, after the completion of the whole pixel copy, and
every pixel byte is written by a store at an index below `height`. -/
theorem c7_ready_after_pixels (held : Bool) (n : Nat) (env : ShmEnv) (w h : Nat)
    (hacq : env.acquire = AcquireResult.ok) (hmap : env.mapOk = true) :
    (shmCaptureFrame held n env w h).2.2.2 = shmWrites w h env.rowPitch (n + 1) env.tick
    ∧ shmWrites w h env.rowPitch (n + 1) env.tick
        = (List.range h).map (fun y => ShmWrite.pixel (y * (w * 4)) (y * env.rowPitch) (w * 4))
          ++ [ShmWrite.frameNum (n + 1), ShmWrite.timestamp env.tick, ShmWrite.ready 1]
    ∧ (shmWrites w h env.rowPitch (n + 1) env.tick).length = h + 3
    ∧ (shmWrites w h env.rowPitch (n + 1) env.tick)[h + 2]? = some (ShmWrite.ready 1)
    ∧ (∀ off, off < h * (w * 4) →
        off / (w * 4) < h
        ∧ (shmWrites w h env.rowPitch (n + 1) env.tick)[off / (w * 4)]?
            = some (ShmWrite.pixel (off / (w * 4) * (w * 4))
                (off / (w * 4) * env.rowPitch) (w * 4))
        ∧ off / (w * 4) * (w * 4) ≤ off ∧ off < off / (w * 4) * (w * 4) + w * 4) := by
  refine ⟨?_, ?_, ?_, ?_, ?_⟩
  · simp [shmCaptureFrame, hacq, hmap]
  · rw [shmWrites, rowWrites_eq]
  · simp [shmWrites, rowWrites_length]
  · rw [shmWrites, List.getElem?_append_right (by rw [rowWrites_length]; omega)]
    rw [rowWrites_length]
    simp
  · intro off hoff
    have hw : 0 < w * 4 := by
      rcases Nat.eq_zero_or_pos (w * 4) with h0 | h0
      · rw [h0, Nat.mul_zero] at hoff; omega
      · exact h0
    have hq : off / (w * 4) < h := (Nat.div_lt_iff_lt_mul hw).2 (by omega)
    refine ⟨hq, ?_, Nat.div_mul_le_self off (w * 4), ?_⟩
    · rw [shmWrites, List.getElem?_append, rowWrites_length, if_pos hq, rowWrites_eq]
      simp [List.getElem?_range, hq]
    · have h1 : off / (w * 4) * (w * 4) + off % (w * 4) = off := Nat.div_add_mod' off (w * 4)
      have h2 : off % (w * 4) < w * 4 := Nat.mod_lt off hw
      omega

/-- Witness for C7 at `width = 2`, `height = 2`, `rowPitch = 12`, frame 1,
tick 5, with byte offset 7 covered by pixel row `7 / 8 = 0`. -/
theorem c7_witness :
    (shmCaptureFrame false 0
        ⟨AcquireResult.ok, true, 12, fun i => i, 5⟩ 2 2).2.2.2
      = shmWrites 2 2 12 1 5
    ∧ 7 / (2 * 4) < 2 :=
  ⟨(c7_ready_after_pixels false 0 ⟨AcquireResult.ok, true, 12, fun i => i, 5⟩ 2 2
      rfl rfl).1,
   ((c7_ready_after_pixels false 0 ⟨AcquireResult.ok, true, 12, fun i => i, 5⟩ 2 2
      rfl rfl).2.2.2.2 7 (by decide)).1⟩

/-- Claim C9: releasing when no frame is held is a no-op and never an error.
In the raw service the release step leaves the session untouched and issues
no duplication call at all when `hasFrame` is `false`; in the shared-memory
variant the unconditional `ReleaseFrame` merely yields a failing HRESULT that
the code discards — the outcome of the capture (success flag, frame counter
and stores) is independent of whether a frame was held. -/
theorem c9_release_idempotent :
    (∀ s : Session, s.hasFrame = false → releasePhase s = (s, []))
    ∧ (∀ (h1 h2 : Bool) (n : Nat) (env : ShmEnv) (w hh : Nat),
        (shmCaptureFrame h1 n env w hh).2 = (shmCaptureFrame h2 n env w hh).2) := by
  constructor
  · intro s hs
    simp [releasePhase, hs]
  · intro h1 h2 n env w hh
    cases henv : env.acquire <;> cases hm : env.mapOk <;>
      simp [shmCaptureFrame, henv, hm]

/-- Witness for C9: a concrete idle session is untouched by the release
step. -/
theorem c9_witness : releasePhase ⟨2, 2, false⟩ = (⟨2, 2, false⟩, []) :=
  c9_release_idempotent.1 ⟨2, 2, false⟩ rfl

/-- What `main`'s streaming loop can do with one `CaptureFrame` result. -/
inductive LoopAction
  | sleepRetry (ms : Nat)
  | sendStep
  | reinitSession
  | exitProcess
deriving DecidableEq, Repr

/-- The per-iteration dispatch of the streaming loop of `capture-service.cpp`
(lines 219–238): `-2` → `Sleep(1)` and retry; any other non-positive result,
including `-3` (device lost), → `Sleep(10)` and retry on the same session;
positive → send the frame.  `Initialize` is called exactly once before the
accept loop, so no branch re-initializes the session, and no branch exits the
process. -/
def rawLoopAction (frameSize : Int) : LoopAction :=
  if frameSize = -2 then LoopAction.sleepRetry 1
  else if frameSize ≤ 0 then LoopAction.sleepRetry 10
  else LoopAction.sendStep

/-- An environment whose acquire reports `DXGI_ERROR_ACCESS_LOST`. -/
def envRawLost : CaptureEnv :=
  { acquire := AcquireResult.accessLost, qiOk := true, mapOk := true,
    rowPitch := 8, srcByte := fun _ => 0 }

/-- Claim C1, evaluated against the code: when a mid-stream acquire reports
device lost, `CaptureFrame` returns `-3` and the server loop merely sleeps
10 ms and retries `CaptureFrame` on the same invalidated session; no loop
branch performs the session re-initialization the claim (and the code's own
log line "DXGI_ERROR_ACCESS_LOST - need to reinitialize") requires, and no
branch terminates the process. -/
theorem c1_device_lost_retry_same_session :
    (∀ (s : Session) (env : CaptureEnv) (buf : Buf) (m : Nat),
        env.acquire = AcquireResult.accessLost →
          rawLoopAction (captureFrame s env buf m).ret = LoopAction.sleepRetry 10)
    ∧ (∀ r : Int, rawLoopAction r = LoopAction.sleepRetry 1
        ∨ rawLoopAction r = LoopAction.sleepRetry 10
        ∨ rawLoopAction r = LoopAction.sendStep) := by
  constructor
  · intro s env buf m henv
    have hret : (captureFrame s env buf m).ret = -3 := by
      cases hs : s.hasFrame <;> simp [captureFrame, releasePhase, henv, hs]
    rw [hret]
    rfl
  · intro r
    unfold rawLoopAction
    split_ifs <;> simp

/-- Witness for C1: the device-lost dispatch at a concrete session and
environment. -/
theorem c1_witness :
    rawLoopAction (captureFrame ⟨2, 2, false⟩ envRawLost zeroBuf 999).ret
      = LoopAction.sleepRetry 10 :=
  c1_device_lost_retry_same_session.1 ⟨2, 2, false⟩ envRawLost zeroBuf 999 rfl

/-- Session state of the JPEG service's `ScreenCapture`
(`capture-service-jpeg.cpp` lines 19–28): fixed dimensions, the held-frame
flag, and the `jpegQuality` member (initialized to 70). -/
structure JpegSession where
  width : Nat
  height : Nat
  hasFrame : Bool
  jpegQuality : Int
deriving DecidableEq, Repr

/-- `ScreenCapture::SetQuality` (`capture-service-jpeg.cpp` line 99): stores
the argument unmodified. -/
def SetQuality (s : JpegSession) (q : Int) : JpegSession :=
  { s with jpegQuality := q }

/-- Quality selection of `main` (`capture-service-jpeg.cpp` lines 212–213):
default 60, replaced by the parsed first command-line argument when
present. -/
def parsedQuality (argc : Nat) (arg1 : Int) : Int :=
  if 1 < argc then arg1 else 60

/-- The session `main` configures before streaming: a fresh session
(member default 70) updated by `SetQuality` with the startup argument. -/
def mainJpegSession (w h : Nat) (argc : Nat) (arg1 : Int) : JpegSession :=
  SetQuality ⟨w, h, false, 70⟩ (parsedQuality argc arg1)

/-- Environment of one `CaptureFrameJPEG` call: the acquire outcome, the
HRESULT of every WIC/D3D stage in source order, and the compressed image the
encoder produces (its byte count, as reported by the stream position after
commit, and its bytes, written at `buffer + 8`). -/
structure JpegEnv where
  acquire : AcquireResult
  qiOk : Bool
  mapOk : Bool
  streamOk : Bool
  initMemOk : Bool
  createEncOk : Bool
  encInitOk : Bool
  createFrameOk : Bool
  frameInitOk : Bool
  setSizeOk : Bool
  setFormatOk : Bool
  writePixelsOk : Bool
  frameCommitOk : Bool
  encCommitOk : Bool
  jpegSize : Nat
  jpegBytes : Nat → Nat

/-- Result of one modelled `CaptureFrameJPEG` call; `qualityWritten` is the
value handed to the encoder's `ImageQuality` property bag (as the numerator
of `jpegQuality / 100.0f`), present only when that stage is reached. -/
structure JpegCapResult where
  sess : JpegSession
  ret : Int
  buf : Buf
  qualityWritten : Option Int

/-- Branch eliminator for an `if`: to prove a property of the value of an
`if`, prove it of both branches. -/
theorem iteP {c : Prop} [Decidable c] {α : Sort _} (P : α → Prop) (t e : α)
    (ht : P t) (he : P e) : P (if c then t else e) := by
  by_cases h : c
  · rw [if_pos h]; exact ht
  · rw [if_neg h]; exact he

/-- The buffer produced by a successful `CaptureFrameJPEG`: the compressed
bytes at `buffer + 8`, then the `[2B width][2B height][4B jpegSize]`
header over the front (`capture-service-jpeg.cpp` lines 137, 190–193). -/
def jpegFrameBuf (s1 : JpegSession) (env : JpegEnv) (buf : Buf) : Buf :=
  writeU32LE
    (writeU16LE (writeU16LE (writeBytes buf 8 env.jpegBytes env.jpegSize) 0 s1.width)
      2 s1.height)
    4 env.jpegSize

/-- `ScreenCapture::CaptureFrameJPEG` (`capture-service-jpeg.cpp` lines
101–196): conditional release; acquire with 16 ms timeout, where only
`DXGI_ERROR_WAIT_TIMEOUT` yields `-2` and every other failing HRESULT —
including `DXGI_ERROR_ACCESS_LOST` — yields `-1`; then the WIC pipeline
stage by stage, each failure returning `-1`; on success the compressed bytes
sit at `buffer + 8`, the header `[2B width][2B height][4B jpegSize]` is
written at the front, and the call returns `8 + jpegSize`. -/
def captureFrameJPEG (s : JpegSession) (env : JpegEnv) (buf : Buf) (maxSize : Nat) :
    JpegCapResult :=
  let s1 := if s.hasFrame then { s with hasFrame := false } else s
  match env.acquire with
  | AcquireResult.waitTimeout => ⟨s1, -2, buf, none⟩
  | AcquireResult.ok =>
      let s2 : JpegSession := { s1 with hasFrame := true }
      if env.qiOk = false then ⟨s2, -1, buf, none⟩
      else if env.mapOk = false then ⟨s2, -1, buf, none⟩
      else if env.streamOk = false then ⟨s2, -1, buf, none⟩
      else if env.initMemOk = false then ⟨s2, -1, buf, none⟩
      else if env.createEncOk = false then ⟨s2, -1, buf, none⟩
      else if env.encInitOk = false then ⟨s2, -1, buf, none⟩
      else if env.createFrameOk = false then ⟨s2, -1, buf, none⟩
      else
        let q : Option Int := some s1.jpegQuality
        if env.frameInitOk = false then ⟨s2, -1, buf, q⟩
        else if env.setSizeOk = false then ⟨s2, -1, buf, q⟩
        else if env.setFormatOk = false then ⟨s2, -1, buf, q⟩
        else if env.writePixelsOk = false then ⟨s2, -1, buf, q⟩
        else if env.frameCommitOk = false then ⟨s2, -1, buf, q⟩
        else if env.encCommitOk = false then ⟨s2, -1, buf, q⟩
        else ⟨s2, ((8 + env.jpegSize : Nat) : Int), jpegFrameBuf s1 env buf, q⟩
  | _ => ⟨s1, -1, buf, none⟩

/-- Branch eliminator for `captureFrameJPEG`: every result is one of the
timeout sentinel, a stage-failure sentinel, or the successful frame with
its written buffer. -/
theorem captureFrameJPEG_elim (s : JpegSession) (env : JpegEnv) (buf : Buf)
    (m : Nat) (P : JpegCapResult → Prop)
    (hpos : ∀ (sess s1 : JpegSession) (q : Option Int),
        P ⟨sess, ((8 + env.jpegSize : Nat) : Int), jpegFrameBuf s1 env buf, q⟩)
    (hneg1 : ∀ (sess : JpegSession) (q : Option Int), P ⟨sess, -1, buf, q⟩)
    (hneg2 : ∀ sess : JpegSession, P ⟨sess, -2, buf, none⟩) :
    P (captureFrameJPEG s env buf m) := by
  unfold captureFrameJPEG
  cases env.acquire
  · dsimp only
    apply iteP _ _ _ (hneg1 _ _)
    apply iteP _ _ _ (hneg1 _ _)
    apply iteP _ _ _ (hneg1 _ _)
    apply iteP _ _ _ (hneg1 _ _)
    apply iteP _ _ _ (hneg1 _ _)
    apply iteP _ _ _ (hneg1 _ _)
    apply iteP _ _ _ (hneg1 _ _)
    apply iteP _ _ _ (hneg1 _ _)
    apply iteP _ _ _ (hneg1 _ _)
    apply iteP _ _ _ (hneg1 _ _)
    apply iteP _ _ _ (hneg1 _ _)
    apply iteP _ _ _ (hneg1 _ _)
    apply iteP _ _ _ (hneg1 _ _)
    exact hpos _ _ _
  · exact hneg2 _
  · exact hneg1 _ _
  · exact hneg1 _ _

/-- A compressed-variant environment whose acquire reports device lost and
whose remaining stages would all succeed. -/
def envJpegLost : JpegEnv :=
  { acquire := AcquireResult.accessLost, qiOk := true, mapOk := true,
    streamOk := true, initMemOk := true, createEncOk := true, encInitOk := true,
    createFrameOk := true, frameInitOk := true, setSizeOk := true,
    setFormatOk := true, writePixelsOk := true, frameCommitOk := true,
    encCommitOk := true, jpegSize := 3, jpegBytes := fun _ => 9 }

/-- A compressed-variant environment in which every stage succeeds. -/
def envJpegAllOk : JpegEnv :=
  { envJpegLost with acquire := AcquireResult.ok }

/-- Counterexample to C4 as stated: in the compressed variant a device-lost
acquire is reported as `-1`, not `-3` (`capture-service-jpeg.cpp` lines
111–112 check only `DXGI_ERROR_WAIT_TIMEOUT` and fold every other failing
HRESULT, `DXGI_ERROR_ACCESS_LOST` included, into `-1`). -/
theorem c4_counterexample :
    (captureFrameJPEG ⟨4, 3, false, 60⟩ envJpegLost zeroBuf 999).ret = -1
    ∧ decide ((captureFrameJPEG ⟨4, 3, false, 60⟩ envJpegLost zeroBuf 999).ret = -3)
        = false :=
  ⟨rfl, rfl⟩

/-- Claim C4 (amended): each capture call returns either the positive total
`headerSize + payloadSize` or a negative sentinel; the raw variant uses
exactly `-1`/`-2`/`-3` and maps device lost to `-3`, while the compressed
variant uses only `-1`/`-2` and maps device lost to `-1`, indistinguishable
from a hard error. -/
theorem c4_result_sentinels :
    (∀ (s : Session) (env : CaptureEnv) (buf : Buf) (m : Nat),
        (captureFrame s env buf m).ret = ((8 + s.width * s.height * 4 : Nat) : Int)
        ∨ (captureFrame s env buf m).ret = -1
        ∨ (captureFrame s env buf m).ret = -2
        ∨ (captureFrame s env buf m).ret = -3)
    ∧ (∀ (s : Session) (env : CaptureEnv) (buf : Buf) (m : Nat),
        env.acquire = AcquireResult.accessLost → (captureFrame s env buf m).ret = -3)
    ∧ (∀ (s : JpegSession) (env : JpegEnv) (buf : Buf) (m : Nat),
        (captureFrameJPEG s env buf m).ret = ((8 + env.jpegSize : Nat) : Int)
        ∨ (captureFrameJPEG s env buf m).ret = -1
        ∨ (captureFrameJPEG s env buf m).ret = -2)
    ∧ (∀ (s : JpegSession) (env : JpegEnv) (buf : Buf) (m : Nat),
        env.acquire = AcquireResult.accessLost →
          (captureFrameJPEG s env buf m).ret = -1) := by
  refine ⟨?_, ?_, ?_, ?_⟩
  · intro s env buf m
    cases hs : s.hasFrame <;> cases henv : env.acquire <;>
      simp [captureFrame, releasePhase, henv, hs] <;> split_ifs <;> simp
  · intro s env buf m henv
    cases hs : s.hasFrame <;> simp [captureFrame, releasePhase, henv, hs]
  · intro s env buf m
    exact captureFrameJPEG_elim s env buf m
      (fun r => r.ret = ((8 + env.jpegSize : Nat) : Int) ∨ r.ret = -1 ∨ r.ret = -2)
      (fun sess s1 q => Or.inl rfl)
      (fun sess q => Or.inr (Or.inl rfl))
      (fun sess => Or.inr (Or.inr rfl))
  · intro s env buf m henv
    cases hs : s.hasFrame <;> simp [captureFrameJPEG, henv, hs]

/-- Witness for C4 at concrete device-lost environments of both variants. -/
theorem c4_witness :
    (captureFrame ⟨2, 2, false⟩ envRawLost zeroBuf 999).ret = -3
    ∧ (captureFrameJPEG ⟨4, 3, true, 60⟩ envJpegLost zeroBuf 999).ret = -1 :=
  ⟨c4_result_sentinels.2.1 ⟨2, 2, false⟩ envRawLost zeroBuf 999 rfl,
   c4_result_sentinels.2.2.2 ⟨4, 3, true, 60⟩ envJpegLost zeroBuf 999 rfl⟩

/-- Counterexample to C8 as stated: the startup quality 150 lies outside
`[0,100]`, yet the configured session stores it unchanged — it is neither
clamped into range nor rejected (`SetQuality` is a bare assignment and `main`
passes `atoi(argv[1])` straight through). -/
theorem c8_counterexample :
    (mainJpegSession 4 3 2 150).jpegQuality = 150
    ∧ decide (0 ≤ (mainJpegSession 4 3 2 150).jpegQuality
        ∧ (mainJpegSession 4 3 2 150).jpegQuality ≤ 100) = false :=
  ⟨rfl, rfl⟩

/-- Claim C8 (amended): the startup quality argument is passed through
unchanged into the codec's `ImageQuality` parameter (the numerator of
`jpegQuality / 100.0f`): whenever the encode reaches the property-bag stage,
the value written is exactly the startup argument — no clamping and no
rejection, also for values outside `[0,100]`. -/
theorem c8_quality_passthrough :
    ∀ (w h : Nat) (a : Int) (env : JpegEnv) (buf : Buf) (m : Nat),
      env.acquire = AcquireResult.ok → env.qiOk = true → env.mapOk = true →
      env.streamOk = true → env.initMemOk = true → env.createEncOk = true →
      env.encInitOk = true → env.createFrameOk = true →
      (captureFrameJPEG (mainJpegSession w h 2 a) env buf m).qualityWritten
        = some a := by
  intro w h a env buf m h1 h2 h3 h4 h5 h6 h7 h8
  simp only [captureFrameJPEG, mainJpegSession, SetQuality, parsedQuality,
    h1, h2, h3, h4, h5, h6, h7, h8]
  norm_num
  split_ifs <;> rfl

/-- Witness for C8: the out-of-range startup value 150 reaches the encoder's
quality property unchanged. -/
theorem c8_witness :
    (captureFrameJPEG (mainJpegSession 4 3 2 150) envJpegAllOk zeroBuf 999).qualityWritten
      = some 150 :=
  c8_quality_passthrough 4 3 150 envJpegAllOk zeroBuf 999 rfl rfl rfl rfl rfl rfl rfl rfl

theorem readU32LE_congr (b1 b2 : Buf) (off : Nat)
    (h : ∀ i, i < 4 → b1 (off + i) = b2 (off + i)) :
    readU32LE b1 off = readU32LE b2 off := by
  have h0 := h 0 (by omega)
  have h1 := h 1 (by omega)
  have h2 := h 2 (by omega)
  have h3 := h 3 (by omega)
  rw [Nat.add_zero] at h0
  unfold readU32LE
  rw [h0, h1, h2, h3]

theorem rawFrameBuf_width (w h : Nat) (env : CaptureEnv) (buf : Buf) :
    readU32LE (rawFrameBuf w h env buf) 0 = w % 4294967296 := by
  have step1 : readU32LE (rawFrameBuf w h env buf) 0
      = readU32LE (writeU32LE (writeU32LE buf 0 w) 4 h) 0 :=
    readU32LE_congr _ _ 0 (fun i hi => copyRowsLoop_below _ _ _ _ _ _ _ (by omega))
  have step2 : readU32LE (writeU32LE (writeU32LE buf 0 w) 4 h) 0
      = readU32LE (writeU32LE buf 0 w) 0 :=
    readU32LE_congr _ _ 0 (fun i hi => writeBytes_below _ _ _ _ _ (by omega))
  exact step1.trans (step2.trans (readU32LE_writeU32LE buf 0 w))

theorem rawFrameBuf_height (w h : Nat) (env : CaptureEnv) (buf : Buf) :
    readU32LE (rawFrameBuf w h env buf) 4 = h % 4294967296 := by
  have step1 : readU32LE (rawFrameBuf w h env buf) 4
      = readU32LE (writeU32LE (writeU32LE buf 0 w) 4 h) 4 :=
    readU32LE_congr _ _ 4 (fun i hi => copyRowsLoop_below _ _ _ _ _ _ _ (by omega))
  exact step1.trans (readU32LE_writeU32LE _ 4 h)

theorem jpegFrameBuf_size (s1 : JpegSession) (env : JpegEnv) (buf : Buf) :
    readU32LE (jpegFrameBuf s1 env buf) 4 = env.jpegSize % 4294967296 := by
  unfold jpegFrameBuf
  exact readU32LE_writeU32LE _ 4 env.jpegSize

theorem jpegFrameBuf_payload (s1 : JpegSession) (env : JpegEnv) (buf : Buf)
    (i : Nat) (hi : i < env.jpegSize) :
    jpegFrameBuf s1 env buf (8 + i) = env.jpegBytes i := by
  unfold jpegFrameBuf writeU32LE writeU16LE
  rw [writeBytes_above _ _ _ _ _ (by omega),
      writeBytes_above _ _ _ _ _ (by omega),
      writeBytes_above _ _ _ _ _ (by omega),
      writeBytes_at _ _ _ _ _ (by omega) (by omega)]
  congr 1
  omega

theorem captureFrame_pos (s : Session) (env : CaptureEnv) (buf : Buf) (m : Nat)
    (hpos : 0 < (captureFrame s env buf m).ret) :
    (captureFrame s env buf m).ret = ((8 + s.width * s.height * 4 : Nat) : Int)
    ∧ (captureFrame s env buf m).buf = rawFrameBuf s.width s.height env buf := by
  cases hs : s.hasFrame <;> cases henv : env.acquire <;>
    simp [captureFrame, releasePhase, henv, hs] at hpos ⊢ <;>
    split_ifs at hpos ⊢ <;> simp_all

theorem captureFrameJPEG_pos (s : JpegSession) (env : JpegEnv) (buf : Buf) (m : Nat)
    (hpos : 0 < (captureFrameJPEG s env buf m).ret) :
    (captureFrameJPEG s env buf m).ret = ((8 + env.jpegSize : Nat) : Int)
    ∧ ∃ s1, (captureFrameJPEG s env buf m).buf = jpegFrameBuf s1 env buf := by
  revert hpos
  exact captureFrameJPEG_elim s env buf m
    (fun r => 0 < r.ret →
      r.ret = ((8 + env.jpegSize : Nat) : Int)
      ∧ ∃ s1, r.buf = jpegFrameBuf s1 env buf)
    (fun sess s1 q _ => ⟨rfl, ⟨s1, rfl⟩⟩)
    (fun sess q h => absurd h (by norm_num))
    (fun sess h => absurd h (by norm_num))

/-- The byte-level retry loop of both stream servers
(`capture-service.cpp` lines 246–251, `capture-service-jpeg.cpp` lines
279–284) run against an oracle list of `send` results: while `sent <
frameSize`, the next `send` asks for the remaining `frameSize - sent` bytes
at offset `sent`; a result `≤ 0` breaks out, a positive result advances
`sent`.  Returns `(final sent, whether a result ≤ 0 was hit, the (offset,
requested) pairs of the issued send calls)`. -/
def sendLoop : List Int → Nat → Nat → Nat × Bool × List (Nat × Nat)
  | results, frameSize, sent =>
    if frameSize ≤ sent then (sent, false, [])
    else
      match results with
      | [] => (sent, false, [])
      | r :: rest =>
          if r ≤ 0 then (sent, true, [(sent, frameSize - sent)])
          else
            let t := sendLoop rest frameSize (sent + r.toNat)
            (t.1, t.2.1, (sent, frameSize - sent) :: t.2.2)

/-- A healthy transport for this frame: every `send` result the loop will
consume is positive and no larger than the bytes still owed, and the oracle
is long enough to finish the frame. -/
def okResults : List Int → Nat → Nat → Bool
  | results, frameSize, sent =>
    if frameSize ≤ sent then true
    else
      match results with
      | [] => false
      | r :: rest =>
          decide (1 ≤ r) && decide (r.toNat ≤ frameSize - sent)
            && okResults rest frameSize (sent + r.toNat)

/-- What one frame puts on the wire: `main` first sends the 4-byte value
`frameSize` itself, then drives the retry loop over `frameSize` payload
bytes. -/
structure FrameWire where
  lenField : Nat
  bytesSent : Nat

/-- The wire content of one frame transmission with a healthy-or-not
transport oracle. -/
def sendFrameWire (frameSize : Nat) (results : List Int) : FrameWire :=
  { lenField := frameSize, bytesSent := (sendLoop results frameSize 0).1 }

theorem sendLoop_complete (results : List Int) :
    ∀ (fs sent : Nat), sent ≤ fs → okResults results fs sent = true →
      (sendLoop results fs sent).1 = fs := by
  induction results with
  | nil =>
      intro fs sent hle hok
      rw [okResults] at hok
      rw [sendLoop]
      split_ifs at hok ⊢ with h
      show sent = fs
      omega
  | cons r rest ih =>
      intro fs sent hle hok
      rw [okResults] at hok
      rw [sendLoop]
      split_ifs with h1 h2
      · omega
      · rw [if_neg h1] at hok
        simp only [Bool.and_eq_true, decide_eq_true_eq] at hok
        omega
      · rw [if_neg h1] at hok
        simp only [Bool.and_eq_true, decide_eq_true_eq] at hok
        exact ih fs (sent + r.toNat) (by omega) hok.2

theorem sendLoop_calls (results : List Int) :
    ∀ (fs sent : Nat) (p : Nat × Nat), p ∈ (sendLoop results fs sent).2.2 →
      p.2 = fs - p.1 ∧ p.1 < fs := by
  induction results with
  | nil =>
      intro fs sent p hp
      rw [sendLoop] at hp
      split_ifs at hp <;> simp at hp
  | cons r rest ih =>
      intro fs sent p hp
      rw [sendLoop] at hp
      split_ifs at hp with h1 h2
      · simp at hp
      · simp at hp
        subst hp
        exact ⟨rfl, by omega⟩
      · simp at hp
        rcases hp with hp | hp
        · subst hp
          exact ⟨rfl, by omega⟩
        · exact ih fs (sent + r.toNat) p hp

theorem sendLoop_err (results : List Int) :
    ∀ (fs sent : Nat), (sendLoop results fs sent).2.1 = true →
      (sendLoop results fs sent).1 < fs := by
  induction results with
  | nil =>
      intro fs sent herr
      rw [sendLoop] at herr
      split_ifs at herr
  | cons r rest ih =>
      intro fs sent herr
      rw [sendLoop] at herr ⊢
      split_ifs at herr ⊢ with h1 h2
      · show sent < fs
        omega
      · exact ih fs (sent + r.toNat) herr

/-- What the server does next after the per-frame send phase. -/
inductive ServerNext
  | acceptNext
  | keepStreaming
  | terminated
deriving DecidableEq, Repr

/-- The per-frame send phase of both stream servers (`capture-service.cpp`
lines 242–263, `capture-service-jpeg.cpp` lines 276–303): one `send` of the
4-byte length field, checked only for a result `≤ 0`; then the byte-level
retry loop over the payload; if the length send failed or the loop ended
short, the client socket is closed and control returns to `accept` —
`ServerNext.acceptNext` — otherwise streaming continues.  Returns
`(next, length-field send calls, payload send calls)`. -/
def clientFrameStep (lenSendRes : Int) (results : List Int) (frameSize : Nat) :
    ServerNext × List (Nat × Nat) × List (Nat × Nat) :=
  if lenSendRes ≤ 0 then (ServerNext.acceptNext, [(0, 4)], [])
  else
    if (sendLoop results frameSize 0).1 < frameSize
    then (ServerNext.acceptNext, [(0, 4)], (sendLoop results frameSize 0).2.2)
    else (ServerNext.keepStreaming, [(0, 4)], (sendLoop results frameSize 0).2.2)

/-- Counterexample to C6 as stated: a length-field send that transfers only
2 of its 4 requested bytes is not retried — the server issues that single
`(0, 4)` send call and carries on streaming (the code checks the length send
only for `<= 0`, `capture-service.cpp` line 243). -/
theorem c6_counterexample :
    (clientFrameStep 2 [8] 8).2.1 = [(0, 4)]
    ∧ (clientFrameStep 2 [8] 8).1 = ServerNext.keepStreaming :=
  ⟨rfl, rfl⟩

/-- Claim C6 (amended): every payload send call requests exactly the
remaining `frameSize - offset` bytes from the current offset; over a healthy
transport the loop runs until the whole frame is sent; a zero/negative
result from the length send or any payload send makes the server close the
client channel and return to accepting the next client; the server never
terminates from the send phase; and the 4-byte length-field send is issued
exactly once, without byte-level retry. -/
theorem c6_send_retry_disconnect :
    (∀ (results : List Int) (fs sent : Nat) (p : Nat × Nat),
        p ∈ (sendLoop results fs sent).2.2 → p.2 = fs - p.1 ∧ p.1 < fs)
    ∧ (∀ (results : List Int) (fs : Nat), okResults results fs 0 = true →
        (sendLoop results fs 0).1 = fs)
    ∧ (∀ (lr : Int) (results : List Int) (fs : Nat), lr ≤ 0 →
        (clientFrameStep lr results fs).1 = ServerNext.acceptNext)
    ∧ (∀ (lr : Int) (results : List Int) (fs : Nat),
        (sendLoop results fs 0).2.1 = true →
          (clientFrameStep lr results fs).1 = ServerNext.acceptNext)
    ∧ (∀ (lr : Int) (results : List Int) (fs : Nat),
        (clientFrameStep lr results fs).1 = ServerNext.acceptNext
        ∨ (clientFrameStep lr results fs).1 = ServerNext.keepStreaming)
    ∧ (∀ (lr : Int) (results : List Int) (fs : Nat),
        (clientFrameStep lr results fs).2.1 = [(0, 4)]) := by
  refine ⟨fun results fs sent p hp => sendLoop_calls results fs sent p hp,
    fun results fs hok => sendLoop_complete results fs 0 (by omega) hok,
    ?_, ?_, ?_, ?_⟩
  · intro lr results fs hlr
    unfold clientFrameStep
    rw [if_pos hlr]
  · intro lr results fs herr
    unfold clientFrameStep
    split_ifs with h1 h2
    · rfl
    · rfl
    · exact absurd (sendLoop_err results fs 0 herr) h2
  · intro lr results fs
    unfold clientFrameStep
    split_ifs <;> simp
  · intro lr results fs
    unfold clientFrameStep
    split_ifs <;> rfl

/-- Witness for C6: concrete instances of the remainder-retry shape, the
disconnect on a failed length send, and the disconnect on a dead payload
send. -/
theorem c6_witness :
    (((0, 4) : Nat × Nat).2 = 4 - ((0, 4) : Nat × Nat).1 ∧ ((0, 4) : Nat × Nat).1 < 4)
    ∧ (clientFrameStep (-1) [(1 : Int)] 1).1 = ServerNext.acceptNext
    ∧ (clientFrameStep 4 [(-1 : Int)] 1).1 = ServerNext.acceptNext :=
  ⟨c6_send_retry_disconnect.1 [(-1 : Int)] 4 0 (0, 4) (by decide),
   c6_send_retry_disconnect.2.2.1 (-1) [(1 : Int)] 1 (by decide),
   c6_send_retry_disconnect.2.2.2.1 4 [(-1 : Int)] 1 (by decide)⟩

/-- An environment where the raw capture fully succeeds, with a padded row
pitch. -/
def envRawOk : CaptureEnv :=
  { acquire := AcquireResult.ok, qiOk := true, mapOk := true,
    rowPitch := 12, srcByte := fun i => i % 256 }

/-- Claim C3: framing integrity.  Raw variant: every successful
`CaptureFrame` returns exactly `8 + width*height*4` — the very value `main`
then sends as the 4-byte length field — and its buffer carries the
`[4B width][4B height]` header as little-endian 32-bit stores.  Compressed
variant: every successful `CaptureFrameJPEG` returns `8 + jpegSize`, the
header field at offset 4 holds `jpegSize`, and exactly those `jpegSize`
compressed bytes follow the 8-byte header.  Wire: over a healthy transport
the payload loop transmits exactly `lenField` bytes, so the length field
equals the number of bytes subsequently sent. -/
theorem c3_framing_integrity :
    (∀ (s : Session) (env : CaptureEnv) (buf : Buf) (m : Nat),
        0 < (captureFrame s env buf m).ret →
          (captureFrame s env buf m).ret = ((8 + s.width * s.height * 4 : Nat) : Int)
          ∧ readU32LE (captureFrame s env buf m).buf 0 = s.width % 4294967296
          ∧ readU32LE (captureFrame s env buf m).buf 4 = s.height % 4294967296)
    ∧ (∀ (s : JpegSession) (env : JpegEnv) (buf : Buf) (m : Nat),
        0 < (captureFrameJPEG s env buf m).ret →
          (captureFrameJPEG s env buf m).ret = ((8 + env.jpegSize : Nat) : Int)
          ∧ readU32LE (captureFrameJPEG s env buf m).buf 4
              = env.jpegSize % 4294967296
          ∧ ∀ i, i < env.jpegSize →
              (captureFrameJPEG s env buf m).buf (8 + i) = env.jpegBytes i)
    ∧ (∀ (results : List Int) (fs : Nat), okResults results fs 0 = true →
        (sendFrameWire fs results).bytesSent = (sendFrameWire fs results).lenField) := by
  refine ⟨?_, ?_, ?_⟩
  · intro s env buf m hpos
    obtain ⟨hret, hbuf⟩ := captureFrame_pos s env buf m hpos
    refine ⟨hret, ?_, ?_⟩
    · rw [hbuf]; exact rawFrameBuf_width _ _ _ _
    · rw [hbuf]; exact rawFrameBuf_height _ _ _ _
  · intro s env buf m hpos
    obtain ⟨hret, s1, hbuf⟩ := captureFrameJPEG_pos s env buf m hpos
    refine ⟨hret, ?_, ?_⟩
    · rw [hbuf]; exact jpegFrameBuf_size _ _ _
    · intro i hi
      rw [hbuf]; exact jpegFrameBuf_payload _ _ _ i hi
  · intro results fs hok
    exact sendLoop_complete results fs 0 (by omega) hok

/-- Witness for C3 at a concrete `2 × 2` raw frame, a concrete 3-byte
compressed frame, and a healthy two-send transport. -/
theorem c3_witness :
    (captureFrame ⟨2, 2, false⟩ envRawOk zeroBuf 999).ret
      = ((8 + 2 * 2 * 4 : Nat) : Int)
    ∧ readU32LE (captureFrame ⟨2, 2, false⟩ envRawOk zeroBuf 999).buf 0
        = 2 % 4294967296
    ∧ (captureFrameJPEG ⟨4, 3, false, 60⟩ envJpegAllOk zeroBuf 999).ret
        = ((8 + envJpegAllOk.jpegSize : Nat) : Int)
    ∧ (sendFrameWire 3 [2, 1]).bytesSent = (sendFrameWire 3 [2, 1]).lenField :=
  ⟨(c3_framing_integrity.1 ⟨2, 2, false⟩ envRawOk zeroBuf 999 (by decide)).1,
   (c3_framing_integrity.1 ⟨2, 2, false⟩ envRawOk zeroBuf 999 (by decide)).2.1,
   (c3_framing_integrity.2.1 ⟨4, 3, false, 60⟩ envJpegAllOk zeroBuf 999 (by decide)).1,
   c3_framing_integrity.2.2 [2, 1] 3 (by decide)⟩

/-- The state of the `ScreenCaptureAddon` object
(`node-addon/capture.cpp` lines 10–17). -/
structure AddonInstance where
  initialized : Bool
  width : Nat
  height : Nat
deriving DecidableEq, Repr

/-- Environment of one `ScreenCaptureAddon::Initialize` call: the HRESULT of
each D3D/DXGI stage in source order, and the display dimensions read from the
duplication description. -/
structure InitEnv where
  deviceOk : Bool
  dxgiOk : Bool
  adapterOk : Bool
  outputOk : Bool
  output1Ok : Bool
  dupOk : Bool
  texOk : Bool
  width : Nat
  height : Nat
deriving DecidableEq, Repr

/-- `ScreenCaptureAddon::Initialize` (`node-addon/capture.cpp` lines 20–71):
no-op when already initialized; otherwise walks the device/duplication
chain, failing with `false` at the first bad HRESULT; the dimensions are
recorded once the duplication exists, and `initialized` becomes `true` only
when every stage, the staging texture included, succeeded. -/
def addonInit (inst : AddonInstance) (env : InitEnv) : AddonInstance × Bool :=
  if inst.initialized then (inst, true)
  else if env.deviceOk = false then (inst, false)
  else if env.dxgiOk = false then (inst, false)
  else if env.adapterOk = false then (inst, false)
  else if env.outputOk = false then (inst, false)
  else if env.output1Ok = false then (inst, false)
  else if env.dupOk = false then (inst, false)
  else
    let inst2 : AddonInstance := { inst with width := env.width, height := env.height }
    if env.texOk = false then (inst2, false)
    else ({ inst2 with initialized := true }, true)

/-- Branch eliminator for `addonInit`. -/
theorem addonInitP (inst : AddonInstance) (env : InitEnv)
    (P : AddonInstance × Bool → Prop)
    (hTrue : P (inst, true))
    (hFail : P (inst, false))
    (hFail2 : P ({ inst with width := env.width, height := env.height }, false))
    (hSucc : P ({ { inst with width := env.width, height := env.height } with
        initialized := true }, true)) :
    P (addonInit inst env) := by
  unfold addonInit
  apply iteP _ _ _ hTrue
  apply iteP _ _ _ hFail
  apply iteP _ _ _ hFail
  apply iteP _ _ _ hFail
  apply iteP _ _ _ hFail
  apply iteP _ _ _ hFail
  apply iteP _ _ _ hFail
  dsimp only
  apply iteP _ _ _ hFail2
  exact hSucc

theorem addonInit_ret_false (inst : AddonInstance) (env : InitEnv) :
    (addonInit inst env).2 = false → (addonInit inst env).1.initialized = false := by
  cases hinit : inst.initialized
  · exact addonInitP inst env
      (fun r => r.2 = false → r.1.initialized = false)
      (fun h => by simp at h)
      (fun _ => hinit)
      (fun _ => hinit)
      (fun h => by simp at h)
  · intro h
    rw [addonInit, if_pos hinit] at h
    simp at h

/-- The global `captureInstance` and the N-API `initialize` entry point
(`node-addon/capture.cpp` lines 140–152): creates the instance when absent,
then runs `Initialize`; the instance survives an initialization failure. -/
def napiInit (g : Option AddonInstance) (env : InitEnv) :
    Option AddonInstance × Bool :=
  let inst := g.getD ⟨false, 0, 0⟩
  (some (addonInit inst env).1, (addonInit inst env).2)

/-- The N-API `getInfo` entry point (`node-addon/capture.cpp` lines 164–179):
reports `initialized := true` exactly when the global instance exists,
regardless of the instance's own `initialized` member. -/
def napiGetInfo (g : Option AddonInstance) : Nat × Nat × Bool :=
  match g with
  | some i => (i.width, i.height, true)
  | none => (0, 0, false)

/-- `ScreenCaptureAddon::CaptureFrame` (`node-addon/capture.cpp` lines
73–125), abstracted to the length of the returned byte buffer: an empty
buffer when not initialized or when any capture stage fails, and the full
`8 + width*height*4` frame on success. -/
def addonCaptureLen (inst : AddonInstance) (env : CaptureEnv) : Nat :=
  if inst.initialized = false then 0
  else
    match env.acquire with
    | AcquireResult.ok =>
        if env.qiOk = false then 0
        else if env.mapOk = false then 0
        else 8 + inst.width * inst.height * 4
    | _ => 0

/-- The N-API `captureFrame` entry point (`node-addon/capture.cpp` lines
154–162): empty buffer when no instance exists. -/
def napiCaptureLen (g : Option AddonInstance) (env : CaptureEnv) : Nat :=
  match g with
  | none => 0
  | some i => addonCaptureLen i env

/-- Claim C10: after any `initialize()` call — even one that returned
`false` because a device, duplication or staging-texture stage failed —
`getInfo()` reports `initialized = true`, because it tests only the
existence of the global instance; and when that `initialize()` returned
`false`, `captureFrame()` still returns an empty byte buffer in every
capture environment. -/
theorem c10_getinfo_reports_existence :
    ∀ (g : Option AddonInstance) (env : InitEnv),
      (napiGetInfo (napiInit g env).1).2.2 = true
      ∧ ((napiInit g env).2 = false →
          ∀ cenv : CaptureEnv, napiCaptureLen (napiInit g env).1 cenv = 0) := by
  intro g env
  constructor
  · rfl
  · intro hret cenv
    have hfalse := addonInit_ret_false (g.getD ⟨false, 0, 0⟩) env hret
    show napiCaptureLen (some (addonInit (g.getD ⟨false, 0, 0⟩) env).1) cenv = 0
    simp [napiCaptureLen, addonCaptureLen, hfalse]

/-- An initialization environment whose very first stage
(`D3D11CreateDevice`) fails. -/
def initEnvFail : InitEnv :=
  ⟨false, true, true, true, true, true, true, 1920, 1080⟩

/-- Witness for C10: with no prior instance and a failing device stage,
`initialize()` returns `false`, yet `getInfo()` reports `initialized = true`
and `captureFrame()` returns an empty buffer. -/
theorem c10_witness :
    (napiGetInfo (napiInit none initEnvFail).1).2.2 = true
    ∧ napiCaptureLen (napiInit none initEnvFail).1 envRawTimeout = 0 :=
  ⟨(c10_getinfo_reports_existence none initEnvFail).1,
   (c10_getinfo_reports_existence none initEnvFail).2 rfl envRawTimeout⟩
